import Mathlib

/-!
Shallow embedding of `FileStream/server/stream_routes.py` (FileStreamBot).

The module's interesting surface is the range-aware streaming proxy:
`cors_headers`, the `stream_handler` route (metadata resolution with
fallback, `Range` parsing, validation, header construction) and the
`media_streamer` chunk generator.  Python integers are modelled as `Int`,
byte strings as `List Char` / `String`, dictionaries with string keys as
association lists in insertion order, and the fallible external
collaborators (database lookup, live Telegram fetch, upstream chunk
stream) as explicit input parameters describing their outcome.
-/

namespace FileStreamBot

/-- The dictionary returned by `cors_headers()` (lines 16-23), in Python
dict insertion order. -/
def cors_headers : List (String × String) :=
  [("Access-Control-Allow-Origin", "*"),
   ("Access-Control-Allow-Methods", "GET, POST, OPTIONS, HEAD"),
   ("Access-Control-Allow-Headers", "Content-Type, Range, User-Agent, X-Requested-With"),
   ("Access-Control-Expose-Headers", "Content-Length, Content-Range, Content-Disposition"),
   ("Access-Control-Max-Age", "86400")]

/-- The stored lookup record (`file_data` from `db.get_file`), with
exactly the fields `stream_handler` reads via `.get`; each is optional
because a Python dict may lack the key.  `file_id`/`message_id` hold the
message id (line 81), `file_size`/`file_name` feed the fallback branch
(lines 90-91). -/
structure FileRecord where
  file_id : Option Int
  message_id : Option Int
  file_size : Option Int
  file_name : Option String
  deriving DecidableEq

/-- Outcome of a successful live `bot.get_messages` fetch (lines 83-87):
the media object's size, and its `file_name` / `mime_type` attributes,
`none` when the attribute is absent (Python `getattr` default) —
`mime_type` may also be present but empty, which line 87's `or` treats
like absence. -/
structure LiveMeta where
  file_size : Int
  file_name : Option String
  mime_type : Option String
  deriving DecidableEq

/-- Resolved metadata after STEP 1 of `stream_handler`. -/
structure Meta where
  size : Int
  name : String
  mime : String
  deriving DecidableEq

/-- An `aiohttp web.Response` as far as the claims observe it: status
code, the header dictionary passed by the handler (insertion order), and
whether the response body is the `media_streamer()` generator. -/
structure Resp where
  status : Nat
  headers : List (String × String)
  streamed : Bool
  deriving DecidableEq

/-- Python whitespace accepted around the argument of `int(...)`. -/
def isPyWs (c : Char) : Bool :=
  c == ' ' || c == '\t' || c == '\n' || c == '\r' || c == '\x0B' || c == '\x0C'

/-- Strip leading and trailing whitespace, as Python `int` does. -/
def trimWs (cs : List Char) : List Char :=
  ((cs.dropWhile isPyWs).reverse.dropWhile isPyWs).reverse

/-- Value of a list of decimal digit characters, most significant first. -/
def digitsToNat (cs : List Char) : Nat :=
  cs.foldl (fun a c => a * 10 + (c.toNat - 48)) 0

def allDigits (cs : List Char) : Bool := cs.all Char.isDigit

/-- Python `int(s)` on the characters of `s`: optional surrounding
whitespace, an optional sign, then one or more decimal digits; `none`
models the `ValueError` Python raises otherwise.  (Underscore digit
separators and non-ASCII digits, which CPython also accepts, are not
modelled; no claim depends on them.) -/
def pyIntChars (cs : List Char) : Option Int :=
  match trimWs cs with
  | [] => none
  | c :: ds =>
    if c = '-' then
      if ds ≠ [] ∧ allDigits ds then some (-(digitsToNat ds : Int)) else none
    else if c = '+' then
      if ds ≠ [] ∧ allDigits ds then some ((digitsToNat ds : Int)) else none
    else if allDigits (c :: ds) then some ((digitsToNat (c :: ds) : Int)) else none

/-- Fuel-driven worker for `stripBytesEq`; the fuel (initially the list
length) only bounds the recursion and never runs out on a step. -/
def stripBytesEqAux : Nat → List Char → List Char
  | _, [] => []
  | 0, cs => cs
  | fuel + 1, c :: rest =>
    if c = 'b' ∧ rest.take 5 = ['y', 't', 'e', 's', '='] then
      stripBytesEqAux fuel (rest.drop 5)
    else
      c :: stripBytesEqAux fuel rest

/-- Python `header.replace("bytes=", "")` (line 99): delete every
non-overlapping occurrence of `"bytes="`, scanning left to right. -/
def stripBytesEq (cs : List Char) : List Char := stripBytesEqAux cs.length cs

/-- Python `s.split("-")` (line 99): split at every `'-'`, keeping empty
pieces; the result is always non-empty. -/
def splitDash : List Char → List (List Char)
  | [] => [[]]
  | c :: rest =>
    if c = '-' then [] :: splitDash rest
    else
      match splitDash rest with
      | [] => [[c]]
      | g :: gs => (c :: g) :: gs

/-- Lines 99-101 of `stream_handler`: strip `"bytes="`, split on `"-"`,
destructure into exactly two tokens, convert with `int`, defaulting an
empty `until` token to `file_size - 1`.  `none` models the `ValueError`
Python raises on a wrong token count or a non-numeric token (which the
route's outer `try` turns into a 500, line 171-173). -/
def parseRange (header : String) (fileSize : Int) : Option (Int × Int) :=
  match splitDash (stripBytesEq header.data) with
  | [f, u] =>
    match pyIntChars f with
    | none => none
    | some fromBytes =>
      if u = [] then some (fromBytes, fileSize - 1)
      else
        match pyIntChars u with
        | none => none
        | some untilBytes => some (fromBytes, untilBytes)
  | _ => none

/-- Line 96: `request.headers.get("Range", 0)` followed by the truthiness
test of line 98 — an absent header and an empty header are both falsy. -/
def rangeHeaderValue (h : Option String) : Option String :=
  match h with
  | none => none
  | some s => if s = "" then none else some s

/-- The `[from, until]` interval computed by lines 98-105: the full
interval `[0, file_size - 1]` when the header is absent/empty, otherwise
the parsed one; `none` when parsing raises. -/
def computeInterval (h : Option String) (fileSize : Int) : Option (Int × Int) :=
  match rangeHeaderValue h with
  | none => some (0, fileSize - 1)
  | some s => parseRange s fileSize

/-- The catch-all 500 response of lines 171-173. -/
def serverError : Resp := { status := 500, headers := cors_headers, streamed := false }

/-- The 404 response of lines 77-78. -/
def notFound : Resp := { status := 404, headers := cors_headers, streamed := false }

/-- The 416 response of lines 109-113: note its header dict is built
fresh, holding only `Content-Range`. -/
def range416 (fileSize : Int) : Resp :=
  { status := 416,
    headers := [("Content-Range", "bytes */" ++ toString fileSize)],
    streamed := false }

/-- Lines 126-133: `cors_headers()` then `.update` with the five content
headers (all keys distinct, so update appends in order). -/
def successHeaders (f u : Int) (m : Meta) (dispo : String) : List (String × String) :=
  cors_headers ++
    [("Content-Type", m.mime),
     ("Content-Range", "bytes " ++ toString f ++ "-" ++ toString u ++ "/" ++ toString m.size),
     ("Content-Length", toString (u - f + 1)),
     ("Content-Disposition", dispo ++ "; filename=\"" ++ m.name ++ "\""),
     ("Accept-Ranges", "bytes")]

/-- Which of the three GET routes (line 70-72) matched. -/
inductive RouteKind
  | stream
  | watch
  | dl
  deriving DecidableEq

/-- Line 120: `"/dl/" in request.path` — only the `/dl/{id}` route's path
contains `"/dl/"` (the id is a single path segment). -/
def isDlRoute : RouteKind → Bool
  | RouteKind.dl => true
  | _ => false

/-- The strict-validation test of line 108. -/
def invalidRange (f u fileSize : Int) : Bool :=
  decide (u ≥ fileSize) || decide (f < 0) || decide (u < f)

/-- `stream_handler` from line 96 on, once metadata is resolved: range
handling, validation, header construction and response selection
(status `206 if range_header else 200`, line 166). -/
def afterResolve (m : Meta) (rangeHeader : Option String) (isDl : Bool) : Resp :=
  match computeInterval rangeHeader m.size with
  | none => serverError
  | some (f, u) =>
    if invalidRange f u m.size then range416 m.size
    else
      { status := if (rangeHeaderValue rangeHeader).isSome then 206 else 200,
        headers := successHeaders f u m (if isDl then "attachment" else "inline"),
        streamed := true }

/-- Line 81: `int(file_data.get('file_id') or file_data.get('message_id'))`
— Python `or` skips a falsy (`None` or `0`) `file_id`; `none` models the
`TypeError` of `int(None)` when both are missing (again a 500). -/
def recordMsgId (fd : FileRecord) : Option Int :=
  match fd.file_id with
  | some v => if v = 0 then fd.message_id else some v
  | none => fd.message_id

/-- STEP 1 of `stream_handler` (lines 82-93): live fetch outcome `some`
uses the message's attributes with `getattr` defaults; outcome `none`
(any exception) silently falls back to the record's stored fields,
`file_size` defaulting to 0, `file_name` to `"video.mp4"`, and the mime
type fixed at `"video/mp4"`. -/
def resolveMeta (fd : FileRecord) (live : Option LiveMeta) : Meta :=
  match live with
  | some lm =>
    { size := lm.file_size,
      name := lm.file_name.getD "video.mp4",
      mime :=
        match lm.mime_type with
        | none => "video/mp4"
        | some s => if s = "" then "video/mp4" else s }
  | none =>
    { size := fd.file_size.getD 0,
      name := fd.file_name.getD "video.mp4",
      mime := "video/mp4" }

/-- The GET handler for `/stream/{id}`, `/watch/{id}`, `/dl/{id}`
(lines 70-173), parameterised by the outcomes of its two external calls:
the database lookup and the live metadata fetch. -/
def stream_handler (record : Option FileRecord) (live : Option LiveMeta)
    (rangeHeader : Option String) (route : RouteKind) : Resp :=
  match record with
  | none => notFound
  | some fd =>
    match recordMsgId fd with
    | none => serverError
    | some _ => afterResolve (resolveMeta fd live) rangeHeader (isDlRoute route)

/-- The OPTIONS preflight handler (lines 64-68). -/
def stream_options_handler : Resp :=
  { status := 200, headers := cors_headers, streamed := false }

/-- The `/` liveness handler (lines 31-33). -/
def root_route_handler : Resp :=
  { status := 200, headers := cors_headers, streamed := false }

/-- The `/api/file/{id}` handler (lines 35-59), as far as status and
headers are observed. -/
def api_handler (record : Option FileRecord) : Resp :=
  match record with
  | none => { status := 404, headers := cors_headers, streamed := false }
  | some _ => { status := 200, headers := cors_headers, streamed := false }

/-- A chunk yielded by `bot.stream_media`: a raw byte sequence. -/
abbrev Chunk := List Nat

/-- The exception classes the generator's `except` clauses distinguish
(lines 158-163); `other` stands for any other `Exception`. -/
inductive UpErr
  | rpcError
  | offsetInvalid
  | floodWait
  | osError
  | connectionReset
  | brokenPipe
  | other
  deriving DecidableEq

/-- One step of the upstream `async for` source: either a yielded chunk
or an exception raised by the iteration. -/
inductive UpEvent
  | chunk (data : Chunk)
  | err (e : UpErr)
  deriving DecidableEq

/-- The `try` body of `media_streamer` (lines 143-156): yield each chunk,
add its length to `total_yielded`, break once the total reaches
`req_length`; an exception ends the body with the chunks already yielded
and the escaping error. -/
def streamLoop (reqLength : Int) : List UpEvent → Int → List Chunk × Option UpErr
  | [], _ => ([], none)
  | UpEvent.err e :: _, _ => ([], some e)
  | UpEvent.chunk c :: rest, total =>
    let total2 := total + (c.length : Int)
    if total2 ≥ reqLength then ([c], none)
    else
      let r := streamLoop reqLength rest total2
      (c :: r.1, r.2)

/-- The three `except` clauses of lines 158-163, each `pass`: map the
escaping exception to the one re-raised to the caller (`none` = caught). -/
def exceptClauses (e : UpErr) : Option UpErr :=
  match e with
  | UpErr.rpcError => none
  | UpErr.offsetInvalid => none
  | UpErr.floodWait => none
  | UpErr.osError => none
  | UpErr.connectionReset => none
  | UpErr.brokenPipe => none
  | UpErr.other => none

/-- The `media_streamer` generator (lines 136-163): the chunks it yields
to the response body and the exception that escapes it, if any.
`msgAvailable` is whether the enclosing scope's `msg` is non-`None`,
`refetchSucceeds` the outcome of the line-140 refetch (whose bare
`except: return` yields nothing), `upstream` the behaviour of the
`bot.stream_media` iterator. -/
def media_streamer (msgAvailable refetchSucceeds : Bool) (reqLength : Int)
    (upstream : List UpEvent) : List Chunk × Option UpErr :=
  if msgAvailable = false ∧ refetchSucceeds = false then ([], none)
  else
    let r := streamLoop reqLength upstream 0
    match r.2 with
    | none => (r.1, none)
    | some e => (r.1, exceptClauses e)

/-- Total number of bytes in a yielded chunk sequence. -/
def totalYielded (out : List Chunk) : Nat := (out.map List.length).sum

/-- Bytes the upstream makes available before its first failure. -/
def availableBytes : List UpEvent → Nat
  | [] => 0
  | UpEvent.err _ :: _ => 0
  | UpEvent.chunk c :: rest => c.length + availableBytes rest

/-- The character of a decimal digit. -/
def digitChar (d : Nat) : Char := Char.ofNat (48 + d)

/-- Fuel-driven decimal printer; the fuel (initially `n + 1`) strictly
exceeds the quotient chain length. -/
def decimalAux : Nat → Nat → List Char
  | 0, _ => []
  | fuel + 1, n =>
    if n < 10 then [digitChar n]
    else decimalAux fuel (n / 10) ++ [digitChar (n % 10)]

/-- Standard decimal rendering of a natural number, used to build the
concrete `bytes=a-b` headers the claims quantify over. -/
def decimal (n : Nat) : String := ⟨decimalAux (n + 1) n⟩

/-- Look a key up in a response's header dictionary. -/
def getHeader (r : Resp) (k : String) : Option String :=
  (r.headers.find? (fun kv => kv.1 == k)).map (fun kv => kv.2)

/-- A concrete stored record used by closed counterexamples. -/
def sampleRecord : FileRecord :=
  { file_id := some 11, message_id := none, file_size := some 1000, file_name := some "a.mkv" }

/-- A concrete live-fetch outcome used by closed counterexamples. -/
def sampleLive : LiveMeta :=
  { file_size := 1000, file_name := some "a.mkv", mime_type := some "video/x-matroska" }

/-- A stored record with no `file_size` field, for the size-0 fallback. -/
def noSizeRecord : FileRecord :=
  { file_id := some 5, message_id := none, file_size := none, file_name := none }

/-! ## Auxiliary lemmas about the decimal digit machinery -/

theorem ne_of_digit {c d : Char} (h : c.isDigit = true) (hd : d.isDigit = false) : c ≠ d := by
  intro e
  rw [e, hd] at h
  exact Bool.false_ne_true h

theorem digit_not_ws {c : Char} (h : c.isDigit = true) : isPyWs c = false := by
  have h1 : c ≠ ' ' := ne_of_digit h (by decide)
  have h2 : c ≠ '\t' := ne_of_digit h (by decide)
  have h3 : c ≠ '\n' := ne_of_digit h (by decide)
  have h4 : c ≠ '\r' := ne_of_digit h (by decide)
  have h5 : c ≠ '\x0B' := ne_of_digit h (by decide)
  have h6 : c ≠ '\x0C' := ne_of_digit h (by decide)
  simp only [isPyWs, Bool.or_eq_false_iff, beq_eq_false_iff_ne, ne_eq]
  tauto

theorem dropWhile_digits {cs : List Char} (h : ∀ c ∈ cs, c.isDigit = true) :
    cs.dropWhile isPyWs = cs := by
  cases cs with
  | nil => rfl
  | cons c t =>
    rw [List.dropWhile_cons, digit_not_ws (h c (List.mem_cons_self c t))]
    simp

theorem trimWs_digits {cs : List Char} (h : ∀ c ∈ cs, c.isDigit = true) :
    trimWs cs = cs := by
  unfold trimWs
  rw [dropWhile_digits h,
    dropWhile_digits (fun c hc => h c (List.mem_reverse.mp hc)),
    List.reverse_reverse]

theorem digitChar_isDigit {d : Nat} (h : d < 10) : (digitChar d).isDigit = true := by
  interval_cases d <;> decide

theorem digitChar_toNat {d : Nat} (h : d < 10) : (digitChar d).toNat = 48 + d := by
  interval_cases d <;> decide

theorem decimalAux_digits : ∀ fuel n, n < fuel → ∀ c ∈ decimalAux fuel n, c.isDigit = true := by
  intro fuel
  induction fuel with
  | zero => intro n hn; omega
  | succ f ih =>
    intro n hn c hc
    simp only [decimalAux] at hc
    by_cases h10 : n < 10
    · rw [if_pos h10] at hc
      simp only [List.mem_singleton] at hc
      subst hc
      exact digitChar_isDigit h10
    · rw [if_neg h10] at hc
      rcases List.mem_append.mp hc with hm | hm
      · have hlt : n / 10 < n := Nat.div_lt_self (by omega) (by norm_num)
        exact ih (n / 10) (by omega) c hm
      · simp only [List.mem_singleton] at hm
        subst hm
        exact digitChar_isDigit (Nat.mod_lt n (by norm_num))

theorem decimalAux_ne_nil : ∀ fuel n, n < fuel → decimalAux fuel n ≠ [] := by
  intro fuel
  induction fuel with
  | zero => intro n hn; omega
  | succ f _ =>
    intro n _
    simp only [decimalAux]
    by_cases h10 : n < 10
    · rw [if_pos h10]; simp
    · rw [if_neg h10]; simp

theorem digitsToNat_append (l : List Char) (c : Char) :
    digitsToNat (l ++ [c]) = digitsToNat l * 10 + (c.toNat - 48) := by
  unfold digitsToNat
  rw [List.foldl_append]
  rfl

theorem decimalAux_val : ∀ fuel n, n < fuel → digitsToNat (decimalAux fuel n) = n := by
  intro fuel
  induction fuel with
  | zero => intro n hn; omega
  | succ f ih =>
    intro n hn
    simp only [decimalAux]
    by_cases h10 : n < 10
    · rw [if_pos h10]
      show 0 * 10 + ((digitChar n).toNat - 48) = n
      rw [digitChar_toNat h10]
      omega
    · rw [if_neg h10, digitsToNat_append]
      have hlt : n / 10 < n := Nat.div_lt_self (by omega) (by norm_num)
      rw [ih (n / 10) (by omega), digitChar_toNat (Nat.mod_lt n (by norm_num))]
      omega

theorem pyIntChars_digits {cs : List Char} (hne : cs ≠ [])
    (h : ∀ c ∈ cs, c.isDigit = true) :
    pyIntChars cs = some ((digitsToNat cs : Nat) : Int) := by
  unfold pyIntChars
  rw [trimWs_digits h]
  cases cs with
  | nil => exact absurd rfl hne
  | cons c ds =>
    have hc := h c (List.mem_cons_self c ds)
    dsimp only
    rw [if_neg (ne_of_digit hc (by decide) : c ≠ '-'),
      if_neg (ne_of_digit hc (by decide) : c ≠ '+'), if_pos]
    simp only [allDigits, List.all_eq_true, decide_eq_true_eq]
    exact fun c hc => h c hc

theorem pyInt_decimal (n : Nat) : pyIntChars (decimal n).data = some ((n : Nat) : Int) := by
  show pyIntChars (decimalAux (n + 1) n) = _
  rw [pyIntChars_digits (decimalAux_ne_nil (n + 1) n (Nat.lt_succ_self n))
      (decimalAux_digits (n + 1) n (Nat.lt_succ_self n)),
    decimalAux_val (n + 1) n (Nat.lt_succ_self n)]

theorem decimal_data_digits (n : Nat) : ∀ c ∈ (decimal n).data, c.isDigit = true :=
  decimalAux_digits (n + 1) n (Nat.lt_succ_self n)

theorem decimal_data_ne_nil (n : Nat) : (decimal n).data ≠ [] :=
  decimalAux_ne_nil (n + 1) n (Nat.lt_succ_self n)

/-! ## Auxiliary lemmas about the `Range` header string functions -/

theorem stripBytesEqAux_no_b : ∀ fuel (cs : List Char), cs.length ≤ fuel →
    (∀ c ∈ cs, c ≠ 'b') → stripBytesEqAux fuel cs = cs := by
  intro fuel
  induction fuel with
  | zero =>
    intro cs hl _
    cases cs with
    | nil => rfl
    | cons c t => simp at hl
  | succ f ih =>
    intro cs hl hb
    cases cs with
    | nil => rfl
    | cons c t =>
      simp only [stripBytesEqAux]
      rw [if_neg, ih t (by simp at hl; omega) (fun x hx => hb x (List.mem_cons_of_mem c hx))]
      intro hcc
      exact hb c (List.mem_cons_self c t) hcc.1

theorem stripBytesEq_header (rest : List Char) (hb : ∀ c ∈ rest, c ≠ 'b') :
    stripBytesEq ('b' :: 'y' :: 't' :: 'e' :: 's' :: '=' :: rest) = rest := by
  show stripBytesEqAux ('b' :: 'y' :: 't' :: 'e' :: 's' :: '=' :: rest).length _ = rest
  simp only [List.length_cons]
  simp only [stripBytesEqAux]
  rw [if_pos]
  · rw [show (('y' :: 't' :: 'e' :: 's' :: '=' :: rest).drop 5) = rest by simp]
    exact stripBytesEqAux_no_b _ rest (by omega) hb
  · constructor <;> simp

theorem splitDash_no_dash {cs : List Char} (h : ∀ c ∈ cs, c ≠ '-') :
    splitDash cs = [cs] := by
  induction cs with
  | nil => rfl
  | cons c t ih =>
    simp only [splitDash]
    rw [if_neg (h c (List.mem_cons_self c t)),
      ih (fun x hx => h x (List.mem_cons_of_mem c hx))]

theorem splitDash_dash_append {cs ds : List Char} (h : ∀ c ∈ cs, c ≠ '-') :
    splitDash (cs ++ '-' :: ds) = cs :: splitDash ds := by
  induction cs with
  | nil => simp [splitDash]
  | cons c t ih =>
    rw [List.cons_append]
    simp only [splitDash]
    rw [if_neg (h c (List.mem_cons_self c t)),
      ih (fun x hx => h x (List.mem_cons_of_mem c hx))]

theorem bytes_header_ne_empty (t : String) : "bytes=" ++ t ≠ "" := by
  intro h
  have h2 : ('b' : Char) :: ("ytes=".data ++ t.data) = [] := congrArg String.data h
  exact List.cons_ne_nil _ _ h2

theorem parseRange_decimal_pair (a b : Nat) (s : Int) :
    parseRange ("bytes=" ++ decimal a ++ "-" ++ decimal b) s = some ((a : Int), (b : Int)) := by
  have hdata : ("bytes=" ++ decimal a ++ "-" ++ decimal b).data
      = 'b' :: 'y' :: 't' :: 'e' :: 's' :: '='
          :: ((decimal a).data ++ '-' :: (decimal b).data) := by
    simp only [String.data_append, List.append_assoc]
    rfl
  have hb : ∀ c ∈ (decimal a).data ++ '-' :: (decimal b).data, c ≠ 'b' := by
    intro c hc
    rcases List.mem_append.mp hc with h1 | h1
    · exact ne_of_digit (decimal_data_digits a c h1) (by decide)
    · rcases List.mem_cons.mp h1 with h2 | h2
      · subst h2; decide
      · exact ne_of_digit (decimal_data_digits b c h2) (by decide)
  have hnd : ∀ c ∈ (decimal a).data, c ≠ '-' :=
    fun c hc => ne_of_digit (decimal_data_digits a c hc) (by decide)
  have hndb : ∀ c ∈ (decimal b).data, c ≠ '-' :=
    fun c hc => ne_of_digit (decimal_data_digits b c hc) (by decide)
  unfold parseRange
  rw [hdata, stripBytesEq_header _ hb, splitDash_dash_append hnd, splitDash_no_dash hndb]
  show (match pyIntChars (decimal a).data with
    | none => none
    | some fromBytes =>
      if (decimal b).data = [] then some (fromBytes, s - 1)
      else
        match pyIntChars (decimal b).data with
        | none => none
        | some untilBytes => some (fromBytes, untilBytes)) = _
  rw [pyInt_decimal a]
  show (if (decimal b).data = [] then _ else _) = _
  rw [if_neg (decimal_data_ne_nil b), pyInt_decimal b]

theorem parseRange_decimal_open (a : Nat) (s : Int) :
    parseRange ("bytes=" ++ decimal a ++ "-") s = some ((a : Int), s - 1) := by
  have hdata : ("bytes=" ++ decimal a ++ "-").data
      = 'b' :: 'y' :: 't' :: 'e' :: 's' :: '=' :: ((decimal a).data ++ '-' :: []) := by
    simp only [String.data_append, List.append_assoc]
    rfl
  have hb : ∀ c ∈ (decimal a).data ++ '-' :: ([] : List Char), c ≠ 'b' := by
    intro c hc
    rcases List.mem_append.mp hc with h1 | h1
    · exact ne_of_digit (decimal_data_digits a c h1) (by decide)
    · rcases List.mem_cons.mp h1 with h2 | h2
      · subst h2; decide
      · simp at h2
  have hnd : ∀ c ∈ (decimal a).data, c ≠ '-' :=
    fun c hc => ne_of_digit (decimal_data_digits a c hc) (by decide)
  unfold parseRange
  rw [hdata, stripBytesEq_header _ hb, splitDash_dash_append hnd]
  show (match pyIntChars (decimal a).data with
    | none => none
    | some fromBytes =>
      if ([] : List Char) = [] then some (fromBytes, s - 1)
      else
        match pyIntChars ([] : List Char) with
        | none => none
        | some untilBytes => some (fromBytes, untilBytes)) = _
  rw [pyInt_decimal a]
  simp

/-! ## Auxiliary lemmas about the handler -/

theorem toString_intOfNat (n : Nat) : toString ((n : Nat) : Int) = toString n := rfl

theorem ne_empty_of_data_cons {s : String} {c : Char} {t : List Char}
    (h : s.data = c :: t) : s ≠ "" := by
  intro e
  rw [e] at h
  exact List.noConfusion h

theorem decimal_pair_header_data (a b : Nat) :
    ("bytes=" ++ decimal a ++ "-" ++ decimal b).data
      = 'b' :: 'y' :: 't' :: 'e' :: 's' :: '='
          :: ((decimal a).data ++ '-' :: (decimal b).data) := by
  simp only [String.data_append, List.append_assoc]
  rfl

theorem decimal_pair_header_ne_empty (a b : Nat) :
    "bytes=" ++ decimal a ++ "-" ++ decimal b ≠ "" :=
  ne_empty_of_data_cons (decimal_pair_header_data a b)

theorem stream_handler_some (fd : FileRecord) (m : Int) (hm : recordMsgId fd = some m)
    (live : Option LiveMeta) (hdr : Option String) (route : RouteKind) :
    stream_handler (some fd) live hdr route
      = afterResolve (resolveMeta fd live) hdr (isDlRoute route) := by
  simp only [stream_handler, hm]

theorem getHeader_success_CL (st : Nat) (b : Bool) (f u : Int) (m : Meta) (d : String) :
    getHeader { status := st, headers := successHeaders f u m d, streamed := b }
      "Content-Length" = some (toString (u - f + 1)) := by
  simp [getHeader, successHeaders, cors_headers, List.find?]

theorem getHeader_success_CR (st : Nat) (b : Bool) (f u : Int) (m : Meta) (d : String) :
    getHeader { status := st, headers := successHeaders f u m d, streamed := b }
      "Content-Range"
      = some ("bytes " ++ toString f ++ "-" ++ toString u ++ "/" ++ toString m.size) := by
  simp [getHeader, successHeaders, cors_headers, List.find?]

theorem exceptClauses_eq_none (e : UpErr) : exceptClauses e = none := by
  cases e <;> rfl

theorem afterResolve_eq (m : Meta) (hdr : Option String) (d : Bool) :
    afterResolve m hdr d = serverError
    ∨ (∃ s, afterResolve m hdr d = range416 s)
    ∨ (∃ st f u d2, (st = 206 ∨ st = 200) ∧ afterResolve m hdr d
        = { status := st, headers := successHeaders f u m d2, streamed := true }) := by
  unfold afterResolve
  cases hI : computeInterval hdr m.size with
  | none => exact Or.inl rfl
  | some p =>
    obtain ⟨f, u⟩ := p
    by_cases hv : invalidRange f u m.size
    · exact Or.inr (Or.inl ⟨m.size, if_pos hv⟩)
    · refine Or.inr (Or.inr ⟨if (rangeHeaderValue hdr).isSome then 206 else 200, f, u,
        if d then "attachment" else "inline", ?_, if_neg hv⟩)
      rcases Bool.eq_false_or_eq_true ((rangeHeaderValue hdr).isSome) with hb | hb <;>
        rw [hb] <;> simp

theorem stream_handler_cases (record : Option FileRecord) (live : Option LiveMeta)
    (hdr : Option String) (route : RouteKind) :
    stream_handler record live hdr route = notFound
    ∨ stream_handler record live hdr route = serverError
    ∨ (∃ s, stream_handler record live hdr route = range416 s)
    ∨ (∃ st f u m d, (st = 206 ∨ st = 200) ∧ stream_handler record live hdr route
        = { status := st, headers := successHeaders f u m d, streamed := true }) := by
  cases record with
  | none => exact Or.inl rfl
  | some fd =>
    cases hm : recordMsgId fd with
    | none =>
      refine Or.inr (Or.inl ?_)
      simp only [stream_handler, hm]
    | some m =>
      rw [stream_handler_some fd m hm]
      rcases afterResolve_eq (resolveMeta fd live) hdr (isDlRoute route) with h | ⟨s, h⟩ |
        ⟨st, f, u, d2, hst, h⟩
      · exact Or.inr (Or.inl h)
      · exact Or.inr (Or.inr (Or.inl ⟨s, h⟩))
      · exact Or.inr (Or.inr (Or.inr ⟨st, f, u, resolveMeta fd live, d2, hst, h⟩))

/-! ## The claims -/

/-- Claim C1: the spec demands that the total bytes yielded be exactly
`min(req_length, bytes available upstream)` and never exceed
`req_length`; the code instead yields each whole chunk before checking
the budget (lines 151-156), so a boundary-crossing chunk overshoots: with
`req_length = 1` and a single 2-byte upstream chunk, the generator yields
the full 2 bytes although `min(1, 2) = 1`. -/
theorem C1_budget_overshoot :
    media_streamer true true 1 [UpEvent.chunk [0, 0]] = ([[0, 0]], none)
    ∧ totalYielded (media_streamer true true 1 [UpEvent.chunk [0, 0]]).1 = 2
    ∧ min 1 (availableBytes [UpEvent.chunk [0, 0]]) = 1
    ∧ ¬(totalYielded (media_streamer true true 1 [UpEvent.chunk [0, 0]]).1 ≤ 1) := by
  decide

/-- Claim C2, counterexample: on the malformed header `bytes=abc-def` the
handler answers 500 (the `ValueError` from `int` is caught by the route's
outer catch-all, lines 171-173), not 416 as claimed. -/
theorem C2_counterexample :
    (stream_handler (some sampleRecord) (some sampleLive) (some "bytes=abc-def")
        RouteKind.stream).status = 500
    ∧ (stream_handler (some sampleRecord) (some sampleLive) (some "bytes=abc-def")
        RouteKind.stream).status ≠ 416 := by
  decide

/-- Claim C2 (amended): a present, non-empty `Range` header that fails
numeric parsing (malformed form or non-numeric token) makes the handler
answer 500 with the CORS headers — the parse exception reaches the
catch-all — never 416. -/
theorem C2_malformed_range_500 (fd : FileRecord) (live : Option LiveMeta)
    (route : RouteKind) (s : String) (m : Int)
    (hm : recordMsgId fd = some m) (hs : s ≠ "")
    (hp : parseRange s (resolveMeta fd live).size = none) :
    stream_handler (some fd) live (some s) route = serverError := by
  rw [stream_handler_some fd m hm]
  unfold afterResolve computeInterval rangeHeaderValue
  simp only [if_neg hs, hp]

/-- Claim C2 witness: the amended claim at the concrete malformed header. -/
theorem C2_malformed_range_500_witness :
    stream_handler (some sampleRecord) (some sampleLive) (some "bytes=abc-def")
      RouteKind.stream = serverError :=
  C2_malformed_range_500 sampleRecord (some sampleLive) RouteKind.stream "bytes=abc-def" 11
    (by decide) (by decide) (by decide)

/-- Claim C3: for a numerically parsed interval `[f, u]` against the
resolved size, the handler rejects iff `u ≥ size ∨ f < 0 ∨ u < f`; on
rejection it returns the bare 416 response with `Content-Range:
bytes */size` and never streams, otherwise it builds the success headers
and streams with status 206/200. -/
theorem C3_range_validation (fd : FileRecord) (live : Option LiveMeta)
    (hdr : Option String) (route : RouteKind) (f u m : Int)
    (hm : recordMsgId fd = some m)
    (hp : computeInterval hdr (resolveMeta fd live).size = some (f, u)) :
    (((resolveMeta fd live).size ≤ u ∨ f < 0 ∨ u < f) →
      stream_handler (some fd) live hdr route = range416 (resolveMeta fd live).size)
    ∧ (¬((resolveMeta fd live).size ≤ u ∨ f < 0 ∨ u < f) →
      (stream_handler (some fd) live hdr route).status ≠ 416
      ∧ (stream_handler (some fd) live hdr route).streamed = true
      ∧ (stream_handler (some fd) live hdr route).headers
          = successHeaders f u (resolveMeta fd live)
              (if isDlRoute route then "attachment" else "inline")) := by
  rw [stream_handler_some fd m hm]
  unfold afterResolve
  simp only [hp]
  constructor
  · intro hinv
    rw [if_pos (show invalidRange f u (resolveMeta fd live).size = true by
      simp only [invalidRange, Bool.or_eq_true, decide_eq_true_eq, ge_iff_le]
      tauto)]
  · intro hval
    rw [if_neg (show ¬invalidRange f u (resolveMeta fd live).size = true by
      simp only [invalidRange, Bool.or_eq_true, decide_eq_true_eq, ge_iff_le]
      tauto)]
    refine ⟨?_, rfl, rfl⟩
    rcases Bool.eq_false_or_eq_true ((rangeHeaderValue hdr).isSome) with hb | hb <;>
      simp [hb]

/-- Claim C3 witness: `bytes=2000-3000` against size 1000 is rejected
with the bare 416 response. -/
theorem C3_range_validation_witness :
    stream_handler (some sampleRecord) (some sampleLive) (some "bytes=2000-3000")
      RouteKind.stream = range416 1000 :=
  (C3_range_validation sampleRecord (some sampleLive) (some "bytes=2000-3000")
      RouteKind.stream 2000 3000 11 (by decide) (by decide)).1 (by decide)

/-- Claim C4: when the live metadata fetch raises, the handler neither
aborts nor 404s: it continues into range validation and streaming with
exactly the record's stored fields, `file_size` defaulting to 0,
`file_name` to the generic `video.mp4`, and the generic `video/mp4` mime
type. -/
theorem C4_metadata_fallback (fd : FileRecord) (hdr : Option String) (route : RouteKind)
    (m : Int) (hm : recordMsgId fd = some m) :
    stream_handler (some fd) none hdr route
      = afterResolve
          { size := fd.file_size.getD 0,
            name := fd.file_name.getD "video.mp4",
            mime := "video/mp4" } hdr (isDlRoute route)
    ∧ (stream_handler (some fd) none hdr route).status ≠ 404 := by
  rw [stream_handler_some fd m hm]
  refine ⟨rfl, ?_⟩
  rcases afterResolve_eq (resolveMeta fd none) hdr (isDlRoute route) with h | ⟨s, h⟩ |
    ⟨st, f, u, d2, hst, h⟩
  · rw [h]; decide
  · rw [h]; exact (by decide : (416 : Nat) ≠ 404)
  · rw [h]
    rcases hst with e | e
    · subst e; exact (by decide : (206 : Nat) ≠ 404)
    · subst e; exact (by decide : (200 : Nat) ≠ 404)

/-- Claim C4 witness: the fallback equality at a concrete record. -/
theorem C4_metadata_fallback_witness :
    stream_handler (some sampleRecord) none none RouteKind.watch
      = afterResolve { size := 1000, name := "a.mkv", mime := "video/mp4" } none false :=
  (C4_metadata_fallback sampleRecord none RouteKind.watch 11 (by decide)).1

/-- Claim C5: with resolved size `total > 0` and no `Range` header, the
computed interval is `[0, total-1]`, the status is 200 (not 206),
`Content-Length` is `total` and `Content-Range` is
`bytes 0-(total-1)/total`. -/
theorem C5_no_range_full_content (fd : FileRecord) (lm : LiveMeta) (route : RouteKind)
    (hdr : Option String) (total : Nat) (m : Int) (hm : recordMsgId fd = some m)
    (hhdr : hdr = none ∨ hdr = some "")
    (hsz : lm.file_size = (total : Int)) (h0 : 0 < total) :
    computeInterval hdr lm.file_size = some (0, (total : Int) - 1)
    ∧ (stream_handler (some fd) (some lm) hdr route).status = 200
    ∧ getHeader (stream_handler (some fd) (some lm) hdr route) "Content-Length"
        = some (toString total)
    ∧ getHeader (stream_handler (some fd) (some lm) hdr route) "Content-Range"
        = some ("bytes 0-" ++ toString (total - 1) ++ "/" ++ toString total) := by
  have hsize : (resolveMeta fd (some lm)).size = (total : Int) := hsz
  have hrv : rangeHeaderValue hdr = none := by
    rcases hhdr with h | h <;> subst h <;> rfl
  have hhandler : stream_handler (some fd) (some lm) hdr route
      = { status := 200,
          headers := successHeaders 0 ((total : Int) - 1) (resolveMeta fd (some lm))
            (if isDlRoute route then "attachment" else "inline"),
          streamed := true } := by
    rw [stream_handler_some fd m hm]
    unfold afterResolve
    simp only [computeInterval, hrv, hsize]
    rw [if_neg (show ¬invalidRange 0 ((total : Int) - 1) (total : Int) = true by
      simp only [invalidRange, Bool.or_eq_true, decide_eq_true_eq, ge_iff_le]
      omega)]
    simp
  refine ⟨by simp only [computeInterval, hrv, hsz], ?_, ?_, ?_⟩
  · rw [hhandler]
  · rw [hhandler, getHeader_success_CL]
    rw [show (total : Int) - 1 - 0 + 1 = ((total : Nat) : Int) by omega, toString_intOfNat]
  · rw [hhandler, getHeader_success_CR, hsize]
    rw [show (total : Int) - 1 = ((total - 1 : Nat) : Int) by omega,
      toString_intOfNat, toString_intOfNat]
    rw [show ("bytes " ++ toString (0 : Int) ++ "-" : String) = "bytes 0-" by decide]

/-- Claim C5 witness: size 1000 with a present-but-empty `Range` header
(the other half of absent-or-empty), status 200. -/
theorem C5_no_range_full_content_witness :
    (stream_handler (some sampleRecord) (some sampleLive) (some "") RouteKind.watch).status
      = 200 :=
  (C5_no_range_full_content sampleRecord sampleLive RouteKind.watch (some "") 1000 11
    (by decide) (Or.inr rfl) (by decide) (by decide)).2.1

/-- Claim C6: a well-formed `bytes=a-b` with `0 ≤ a ≤ b < total` parses
to `[a, b]` and the handler answers 206 with `Content-Length = b - a + 1`
and `Content-Range: bytes a-b/total`. -/
theorem C6_valid_range_206 (fd : FileRecord) (lm : LiveMeta) (route : RouteKind)
    (a b total : Nat) (m : Int) (hm : recordMsgId fd = some m)
    (hsz : lm.file_size = (total : Int)) (hab : a ≤ b) (hbt : b < total) :
    parseRange ("bytes=" ++ decimal a ++ "-" ++ decimal b) lm.file_size
      = some ((a : Int), (b : Int))
    ∧ (stream_handler (some fd) (some lm)
        (some ("bytes=" ++ decimal a ++ "-" ++ decimal b)) route).status = 206
    ∧ getHeader (stream_handler (some fd) (some lm)
        (some ("bytes=" ++ decimal a ++ "-" ++ decimal b)) route) "Content-Length"
        = some (toString (b - a + 1))
    ∧ getHeader (stream_handler (some fd) (some lm)
        (some ("bytes=" ++ decimal a ++ "-" ++ decimal b)) route) "Content-Range"
        = some ("bytes " ++ toString a ++ "-" ++ toString b ++ "/" ++ toString total) := by
  have hsize : (resolveMeta fd (some lm)).size = (total : Int) := hsz
  have hhandler : stream_handler (some fd) (some lm)
      (some ("bytes=" ++ decimal a ++ "-" ++ decimal b)) route
      = { status := 206,
          headers := successHeaders (a : Int) (b : Int) (resolveMeta fd (some lm))
            (if isDlRoute route then "attachment" else "inline"),
          streamed := true } := by
    rw [stream_handler_some fd m hm]
    unfold afterResolve
    simp only [computeInterval, rangeHeaderValue,
      if_neg (decimal_pair_header_ne_empty a b), parseRange_decimal_pair, hsize]
    rw [if_neg (show ¬invalidRange (a : Int) (b : Int) (total : Int) = true by
      simp only [invalidRange, Bool.or_eq_true, decide_eq_true_eq, ge_iff_le]
      omega)]
    simp
  refine ⟨parseRange_decimal_pair a b lm.file_size, ?_, ?_, ?_⟩
  · rw [hhandler]
  · rw [hhandler, getHeader_success_CL]
    rw [show (b : Int) - (a : Int) + 1 = ((b - a + 1 : Nat) : Int) by omega, toString_intOfNat]
  · rw [hhandler, getHeader_success_CR, hsize]
    rw [toString_intOfNat, toString_intOfNat, toString_intOfNat]

/-- Claim C6 witness: `bytes=500-599` against size 1000 gives 206. -/
theorem C6_valid_range_206_witness :
    (stream_handler (some sampleRecord) (some sampleLive)
        (some ("bytes=" ++ decimal 500 ++ "-" ++ decimal 599)) RouteKind.stream).status
      = 206 :=
  (C6_valid_range_206 sampleRecord sampleLive RouteKind.stream 500 599 1000 11
    (by decide) (by decide) (by decide) (by decide)).2.1

/-- Claim C7: an open-ended `bytes=a-` resolves to the interval
`[a, total - 1]` — the missing `until` token defaults to `file_size - 1`
(line 101). -/
theorem C7_open_ended_range (a total : Nat) (ha : a < total) :
    parseRange ("bytes=" ++ decimal a ++ "-") ((total : Nat) : Int)
      = some ((a : Int), ((total : Nat) : Int) - 1) :=
  parseRange_decimal_open a ((total : Nat) : Int)

/-- Claim C7 witness: `bytes=3-` against size 10 resolves to `[3, 9]`. -/
theorem C7_open_ended_range_witness :
    parseRange ("bytes=" ++ decimal 3 ++ "-") ((10 : Nat) : Int)
      = some (((3 : Nat) : Int), ((10 : Nat) : Int) - 1) :=
  C7_open_ended_range 3 10 (by decide)

/-- Claim C8: whatever the upstream iterator does — any number of chunks
followed by a rate-limit, offset-invalid, protocol, transport or other
exception — the generator never propagates an exception to the HTTP
layer: every error class is swallowed by the `except ... pass` clauses
(and the pre-loop refetch failure just returns). -/
theorem C8_stream_errors_swallowed (msgAvailable refetchSucceeds : Bool)
    (reqLength : Int) (upstream : List UpEvent) :
    (media_streamer msgAvailable refetchSucceeds reqLength upstream).2 = none := by
  unfold media_streamer
  by_cases h : msgAvailable = false ∧ refetchSucceeds = false
  · rw [if_pos h]
  · rw [if_neg h]
    cases hE : (streamLoop reqLength upstream 0).2 with
    | none => simp [hE]
    | some e => simp [hE, exceptClauses_eq_none]

/-- Claim C9, counterexample: with a size-less record and failed live
fetch, a GET whose `Range` header is malformed is answered 500, not 416 —
so not *every* GET request is rejected with 416. -/
theorem C9_counterexample :
    (stream_handler (some noSizeRecord) none (some "bytes=x-y") RouteKind.stream).status
      = 500
    ∧ (stream_handler (some noSizeRecord) none (some "bytes=x-y")
        RouteKind.stream).status ≠ 416 := by
  decide

/-- Claim C9 (amended): when the live fetch fails and the record stores
no `file_size`, the resolved size defaults to 0 and every GET whose
`Range` header is absent, empty, or numerically parseable — in
particular every request with no header at all — is rejected with 416
and `Content-Range: bytes */0`, with no streaming; a malformed header
instead yields 500. -/
theorem C9_zero_size_416 (fd : FileRecord) (hdr : Option String) (route : RouteKind)
    (m : Int) (hm : recordMsgId fd = some m) (hsz : fd.file_size = none)
    (hp : computeInterval hdr 0 ≠ none) :
    stream_handler (some fd) none hdr route = range416 0
    ∧ (stream_handler (some fd) none hdr route).headers
        = [("Content-Range", "bytes */0")] := by
  have hsize : (resolveMeta fd none).size = 0 := by
    simp [resolveMeta, hsz]
  have hmain : stream_handler (some fd) none hdr route = range416 0 := by
    rw [stream_handler_some fd m hm]
    unfold afterResolve
    rw [hsize]
    obtain ⟨p, hI⟩ := Option.ne_none_iff_exists'.mp hp
    obtain ⟨f, u⟩ := p
    simp only [hI]
    rw [if_pos (show invalidRange f u 0 = true by
      simp only [invalidRange, Bool.or_eq_true, decide_eq_true_eq, ge_iff_le]
      omega)]
  refine ⟨hmain, ?_⟩
  rw [hmain]
  decide

/-- Claim C9 witness: the size-less record with no `Range` header at all
is rejected with the bare 416 response. -/
theorem C9_zero_size_416_witness :
    stream_handler (some noSizeRecord) none none RouteKind.stream = range416 0 :=
  (C9_zero_size_416 noSizeRecord none RouteKind.stream 5 (by decide) rfl (by decide)).1

/-- Claim C10: every 416 response carries exactly the single
`Content-Range` header — none of the CORS headers — while every non-416
response of the stream handler, the OPTIONS preflight, the root route and
the API route includes the CORS `Access-Control-Allow-Origin` header. -/
theorem C10_416_headers_no_cors :
    (∀ record live hdr route,
        (stream_handler record live hdr route).status = 416 →
          (stream_handler record live hdr route).headers.map Prod.fst = ["Content-Range"])
    ∧ (∀ record live hdr route,
        (stream_handler record live hdr route).status ≠ 416 →
          ("Access-Control-Allow-Origin", "*") ∈ (stream_handler record live hdr route).headers)
    ∧ ("Access-Control-Allow-Origin", "*") ∈ stream_options_handler.headers
    ∧ ("Access-Control-Allow-Origin", "*") ∈ root_route_handler.headers
    ∧ (∀ record, ("Access-Control-Allow-Origin", "*") ∈ (api_handler record).headers) := by
  refine ⟨?_, ?_, by decide, by decide, ?_⟩
  · intro record live hdr route h416
    rcases stream_handler_cases record live hdr route with h | h | ⟨s, h⟩ |
      ⟨st, f, u, mm, d, hst, h⟩
    · rw [h] at h416; exact absurd h416 (by decide)
    · rw [h] at h416; exact absurd h416 (by decide)
    · rw [h]; rfl
    · rw [h] at h416
      rcases hst with e | e
      · subst e; exact absurd h416 (by decide : ¬(206 = 416))
      · subst e; exact absurd h416 (by decide : ¬(200 = 416))
  · intro record live hdr route hne
    rcases stream_handler_cases record live hdr route with h | h | ⟨s, h⟩ |
      ⟨st, f, u, mm, d, hst, h⟩
    · rw [h]; decide
    · rw [h]; decide
    · rw [h] at hne; exact absurd rfl hne
    · rw [h]
      exact List.mem_append.mpr (Or.inl (by decide))
  · intro record
    cases record <;>
      exact (by decide : ("Access-Control-Allow-Origin", "*") ∈ cors_headers)

/-- Claim C10 witness: a concrete 416 response whose header map is the
single `Content-Range` entry. -/
theorem C10_416_headers_no_cors_witness :
    (stream_handler (some noSizeRecord) none none RouteKind.stream).headers.map Prod.fst
      = ["Content-Range"] :=
  C10_416_headers_no_cors.1 (some noSizeRecord) none none RouteKind.stream (by decide)

end FileStreamBot
